import Mathlib

set_option maxRecDepth 100000

/-!
Verification of the image-generation fallback chain of the AI-Fashion-Advisor
backend (`src/backend/main.py`).

Python strings are modelled as `List Char`; Python's `len`, slicing `[:n]`,
`.lower()`, substring membership `in`, and `" ".join` become `List.length`,
`List.take n`, `List.map Char.toLower`, `containsSub` and `joinSpace`.

The external providers (Replicate, the OpenAI image models, the Stability and
Nebius REST APIs) are modelled by an environment `Env` recording which
credentials are configured and what each external call would do (return a
result list, return an HTTP status with a payload, or raise an exception).
`generate_fashion_image` then mirrors the control flow of the Python function
of the same name, returning both the ordered trace of provider attempts that
were made and the optional image reference.
-/

/-- `max_prompt_length = 800` from the source. -/
def max_prompt_length : Nat := 800

/-- Python's `s.lower()` (character-wise lowering). -/
def lowercase (s : List Char) : List Char := s.map Char.toLower

/-- Python's substring test `needle in hay`. -/
def containsSub (needle : List Char) : List Char → Bool
  | [] => needle.isEmpty
  | c :: t => needle.isPrefixOf (c :: t) || containsSub needle t

/-- The `common_fashion_terms` vocabulary list from the source, in declaration order. -/
def common_fashion_terms : List (List Char) :=
  ["dress", "suit", "formal", "casual", "business", "professional",
   "shirt", "blouse", "skirt", "pants", "trousers", "jeans",
   "jacket", "blazer", "coat", "sweater", "cardigan", "shoes",
   "accessories", "jewelry", "elegant", "stylish", "modern", "classic"].map String.toList

/-- The `colors` vocabulary list from the source, in declaration order. -/
def colors : List (List Char) :=
  ["red", "blue", "green", "yellow", "black", "white", "grey", "gray",
   "purple", "pink", "orange", "brown", "navy", "teal", "maroon", "beige"].map String.toList

/-- The fixed text that precedes the truncated advice in the default prompt. -/
def promptIntro : List Char :=
  "Create a professional photograph showing a fashion outfit based on this advice: ".toList

/-- The fixed template that precedes the extracted-keyword phrase. -/
def keywordTemplate : List Char :=
  "Create a professional fashion photograph showing an outfit with: ".toList

/-- The generic prompt used when no vocabulary term matches. -/
def genericFallbackPrompt : List Char :=
  "Create a professional fashion photograph showing a stylish outfit suitable for various occasions".toList

/-- The hardcoded prompt of the degraded final attempt. -/
def degraded_prompt : List Char := "professional fashion outfit".toList

/-- The `extracted_terms` accumulation from the source: every fashion term that
occurs in the lowercased advice, in vocabulary order, then every color that does. -/
def extracted_terms (fashion_advice : List Char) : List (List Char) :=
  (common_fashion_terms.filter fun term => containsSub term (lowercase fashion_advice)) ++
  (colors.filter fun color => containsSub color (lowercase fashion_advice))

/-- Python's `" ".join`. -/
def joinSpace : List (List Char) → List Char
  | [] => []
  | [t] => t
  | t :: u :: rest => t ++ ' ' :: joinSpace (u :: rest)

/-- The prompt-construction step of `generate_fashion_image`: default prompt is
the fixed text plus the advice truncated to `max_prompt_length`; if that still
exceeds `max_prompt_length`, switch to the extracted-keyword prompt, or the
generic prompt when no term matched. -/
def refined_prompt (fashion_advice : List Char) : List Char :=
  if max_prompt_length < (promptIntro ++ fashion_advice.take max_prompt_length).length then
    if extracted_terms fashion_advice = [] then genericFallbackPrompt
    else keywordTemplate ++ joinSpace (extracted_terms fashion_advice)
  else promptIntro ++ fashion_advice.take max_prompt_length

/-- Behaviour of one external call that returns a list of image references:
either it returns the list, or it raises an exception. -/
inductive CallResult where
  | ok (refs : List (List Char))
  | exn
deriving DecidableEq

/-- Configuration and external-call behaviour for one request. `none` for a
REST call means the request raised; `some (status, payload)` is the HTTP status
code together with the decoded artifact/image list of the response body. -/
structure Env where
  replicate_configured : Bool
  openai_configured : Bool
  stability_api_key : Bool
  nebius_api_key : Bool
  nebius_folder_id : Bool
  replicate_run : CallResult
  gpt_image_1 : CallResult
  stability_post : Option (Nat × List (List Char))
  nebius_post : Option (Nat × List (List Char))
  dalle3 : CallResult
  dalle2 : CallResult
  time_now : Nat

/-- One provider attempt, recording the prompt it was invoked with (and, for
the OpenAI image models of the final fallback, the model name). -/
inductive Attempt where
  | replicate (prompt : List Char)
  | gpt_image_1 (prompt : List Char)
  | stability (prompt : List Char)
  | nebius (prompt : List Char)
  | dalle (model : List Char) (prompt : List Char)
deriving DecidableEq

/-- `f"stability_{int(time.time())}.png"`. -/
def stability_filename (t : Nat) : List Char :=
  "stability_".toList ++ (toString t).toList ++ ".png".toList

/-- `f"nebius_{int(time.time())}.png"`. -/
def nebius_filename (t : Nat) : List Char :=
  "nebius_".toList ++ (toString t).toList ++ ".png".toList

/-- `f"http://localhost:8000/generated-images/{filename}"`. -/
def served_url (filename : List Char) : List Char :=
  "http://localhost:8000/generated-images/".toList ++ filename

/-- The DALL-E 2 block: one attempt with the hardcoded degraded prompt; an
empty result or an exception both fall through to the final `return None`. -/
def dalle2_attempt (env : Env) : List Attempt × Option (List Char) :=
  match env.dalle2 with
  | .ok (r :: _) => ([.dalle "dall-e-2".toList degraded_prompt], some r)
  | _ => ([.dalle "dall-e-2".toList degraded_prompt], none)

/-- The DALL-E 3 block: on exception the DALL-E 2 block runs inside the
`except` handler; an empty (non-exceptional) result falls through to the final
`return None` without the degraded attempt. -/
def dalle3_attempt (env : Env) (p : List Char) : List Attempt × Option (List Char) :=
  match env.dalle3 with
  | .ok (r :: _) => ([.dalle "dall-e-3".toList p], some r)
  | .ok [] => ([.dalle "dall-e-3".toList p], none)
  | .exn =>
    let next := dalle2_attempt env
    (.dalle "dall-e-3".toList p :: next.1, next.2)

/-- The Nebius block: only attempted when both credentials are set; a 200
status with a non-empty image list persists a file named by `int(time.time())`
and returns its local URL; any other status, an empty list, or an exception
falls through to the DALL-E 3 block. -/
def nebius_attempt (env : Env) (p : List Char) : List Attempt × Option (List Char) :=
  if env.nebius_api_key && env.nebius_folder_id then
    let next := dalle3_attempt env p
    match env.nebius_post with
    | some (status, _ :: _) =>
      if status == 200 then ([.nebius p], some (served_url (nebius_filename env.time_now)))
      else (.nebius p :: next.1, next.2)
    | _ => (.nebius p :: next.1, next.2)
  else dalle3_attempt env p

/-- The Stability block: only attempted when its secret is set; mirrors the
Nebius block's success and fall-through structure. -/
def stability_attempt (env : Env) (p : List Char) : List Attempt × Option (List Char) :=
  if env.stability_api_key then
    let next := nebius_attempt env p
    match env.stability_post with
    | some (status, _ :: _) =>
      if status == 200 then ([.stability p], some (served_url (stability_filename env.time_now)))
      else (.stability p :: next.1, next.2)
    | _ => (.stability p :: next.1, next.2)
  else nebius_attempt env p

/-- The OpenAI section: the gpt-image-1 attempt, whose `except` handler
contains the Stability, Nebius and DALL-E blocks. A non-empty result returns
its first URL; an empty (non-exceptional) result falls through to the final
`return None` without running the handler. -/
def openai_models (env : Env) (p : List Char) : List Attempt × Option (List Char) :=
  match env.gpt_image_1 with
  | .ok (r :: _) => ([.gpt_image_1 p], some r)
  | .ok [] => ([.gpt_image_1 p], none)
  | .exn =>
    let next := stability_attempt env p
    (.gpt_image_1 p :: next.1, next.2)

/-- `generate_fashion_image`: the Replicate attempt (when configured) returns
the first element of a non-empty output list; otherwise, if the OpenAI client
is not configured the function returns `None`, else the OpenAI section runs.
The result is the ordered trace of attempts plus the optional image reference. -/
def generate_fashion_image (env : Env) (fashion_advice : List Char) :
    List Attempt × Option (List Char) :=
  let p := refined_prompt fashion_advice
  if env.replicate_configured then
    match env.replicate_run with
    | .ok (r :: _) => ([.replicate p], some r)
    | _ =>
      if env.openai_configured then
        let next := openai_models env p
        (.replicate p :: next.1, next.2)
      else ([.replicate p], none)
  else
    if env.openai_configured then openai_models env p
    else ([], none)

/-- Response model of `POST /api/analyze`. -/
structure FashionResponse where
  text_advice : List Char
  image_url : Option (List Char)
deriving DecidableEq

/-- Outcome of `analyze_fashion`: an `HTTPException` or a success body. -/
inductive AnalyzeResult where
  | httpError (status : Nat) (detail : List Char)
  | success (response : FashionResponse)
deriving DecidableEq

/-- Fallback advice text substituted when the advice is empty. -/
def fallback_advice : List Char := "Could not generate fashion advice at this time.".toList

/-- `analyze_fashion`: rejects non-image uploads with 400, missing Gemini key
with 500; otherwise runs the image chain on the advice text and assembles a
success response whose `image_url` is the chain's result. -/
def analyze_fashion (env : Env) (content_type_is_image : Bool) (gemini_api_key : Bool)
    (text_advice : List Char) : AnalyzeResult :=
  if !content_type_is_image then .httpError 400 "File must be an image".toList
  else if !gemini_api_key then
    .httpError 500 "Missing API key(s): Gemini. Please configure your .env file.".toList
  else
    let image_url := (generate_fashion_image env text_advice).2
    let ta := if text_advice.isEmpty then fallback_advice else text_advice
    .success ⟨ta, image_url⟩

/-! ## Helper lemmas -/

/-- `containsSub` decides substring occurrence. -/
theorem containsSub_iff (n : List Char) (hay : List Char) :
    containsSub n hay = true ↔ n <:+: hay := by
  induction hay with
  | nil => simp [containsSub, List.isEmpty_iff, List.infix_nil]
  | cons c t ih => simp [containsSub, ih, List.infix_cons_iff]

theorem promptIntro_length : promptIntro.length = 80 := by decide

theorem joinSpace_length_le (l : List (List Char)) :
    (joinSpace l).length ≤ (l.map List.length).sum + l.length := by
  induction l with
  | nil => simp [joinSpace]
  | cons t rest ih =>
    cases rest with
    | nil => simp [joinSpace]
    | cons u rs =>
      simp only [joinSpace, List.length_append, List.length_cons, List.map_cons,
        List.sum_cons] at ih ⊢
      omega

theorem sum_map_filter_le (l : List (List Char)) (P : List Char → Bool) :
    ((l.filter P).map List.length).sum ≤ (l.map List.length).sum := by
  induction l with
  | nil => simp
  | cons a t ih =>
    cases h : P a <;> simp [List.filter_cons, h] <;> omega

/-! ## Prompt-construction claims -/

/-- C7: for every advice text, the image prompt finally used by the provider
chain — default truncated prompt, extracted-keyword prompt, or generic
fallback prompt — has length at most the bounded budget of 800 characters. -/
theorem refined_prompt_length_le (fashion_advice : List Char) :
    (refined_prompt fashion_advice).length ≤ max_prompt_length := by
  unfold refined_prompt
  split
  · split
    · decide
    · have h1 := joinSpace_length_le (extracted_terms fashion_advice)
      have h2 : ((extracted_terms fashion_advice).map List.length).sum ≤ 232 := by
        unfold extracted_terms
        rw [← List.filter_append]
        calc ((List.filter _ (common_fashion_terms ++ colors)).map List.length).sum
            ≤ ((common_fashion_terms ++ colors).map List.length).sum :=
              sum_map_filter_le _ _
          _ = 232 := by decide
      have h3 : (extracted_terms fashion_advice).length ≤ 40 := by
        unfold extracted_terms
        rw [← List.filter_append]
        calc (List.filter _ (common_fashion_terms ++ colors)).length
            ≤ (common_fashion_terms ++ colors).length := List.length_filter_le _ _
          _ = 40 := by decide
      have h4 : keywordTemplate.length = 65 := by decide
      simp only [List.length_append, max_prompt_length]
      omega
  · simp only [max_prompt_length] at *
    omega

/-- C6: for every advice text longer than 800 characters in which no
vocabulary keyword (fashion term or color) occurs, the derived image prompt is
the fixed generic fallback prompt. -/
theorem long_unmatched_advice_generic (fashion_advice : List Char)
    (hlen : max_prompt_length < fashion_advice.length)
    (hterms : ∀ t ∈ common_fashion_terms ++ colors,
      containsSub t (lowercase fashion_advice) = false) :
    refined_prompt fashion_advice = genericFallbackPrompt := by
  have hext : extracted_terms fashion_advice = [] := by
    unfold extracted_terms
    rw [← List.filter_append, List.filter_eq_nil_iff]
    intro a ha
    simp [hterms a ha]
  have hcond : max_prompt_length <
      (promptIntro ++ fashion_advice.take max_prompt_length).length := by
    simp only [List.length_append, List.length_take, promptIntro_length,
      max_prompt_length] at *
    omega
  unfold refined_prompt
  rw [if_pos hcond, if_pos hext]

/-- Witness for C6 at an 801-character advice with no matching keyword. -/
theorem long_unmatched_advice_generic_witness :
    max_prompt_length < (List.replicate 801 'z').length ∧
    refined_prompt (List.replicate 801 'z') = genericFallbackPrompt :=
  ⟨by decide, long_unmatched_advice_generic _ (by decide) (by decide)⟩

/-- C9: the keyword-extraction fallback triggers exactly when the fixed intro
text plus the advice already truncated to 800 characters exceeds 800
characters in total, i.e. exactly for advice longer than 800 minus the length
of the intro text; the intro text has 80 characters, so the threshold is 720. -/
theorem keyword_branch_iff (fashion_advice : List Char) :
    (max_prompt_length <
        (promptIntro ++ fashion_advice.take max_prompt_length).length ↔
      max_prompt_length - promptIntro.length < fashion_advice.length) ∧
    max_prompt_length - promptIntro.length = 720 := by
  constructor
  · simp only [List.length_append, List.length_take, promptIntro_length, max_prompt_length]
    omega
  · decide

/-- Witness for C9: a 721-character advice fits the 800-character budget on its
own, yet the truncated default prompt overflows, so its text is replaced. -/
theorem keyword_branch_iff_witness :
    max_prompt_length <
      (promptIntro ++ (List.replicate 721 'z').take max_prompt_length).length ∧
    (List.replicate 721 'z').length ≤ max_prompt_length :=
  ⟨(keyword_branch_iff (List.replicate 721 'z')).1.mpr (by decide), by decide⟩

/-- First index at which `needle` occurs as a contiguous substring of the text. -/
def firstOccur (needle : List Char) : List Char → Option Nat
  | [] => if needle.isEmpty then some 0 else none
  | c :: t =>
    if needle.isPrefixOf (c :: t) then some 0 else (firstOccur needle t).map (· + 1)

/-- Whether the first occurrence of "blazer" precedes the first occurrence of
"navy" in the given prompt. -/
def blazerBeforeNavyB (p : List Char) : Bool :=
  match firstOccur "blazer".toList p, firstOccur "navy".toList p with
  | some i, some j => decide (i < j)
  | _, _ => false

/-- C4 counterexample: for the advice text "navy blazer" itself, the derived
prompt is the default prompt embedding the advice verbatim; it contains both
vocabulary terms, but "navy" precedes "blazer" (source order), so the terms do
not appear in the declared vocabulary order. -/
theorem navy_blazer_short_source_order :
    refined_prompt "navy blazer".toList = promptIntro ++ "navy blazer".toList ∧
    containsSub "blazer".toList (refined_prompt "navy blazer".toList) = true ∧
    containsSub "navy".toList (refined_prompt "navy blazer".toList) = true ∧
    blazerBeforeNavyB (refined_prompt "navy blazer".toList) = false := by
  exact ⟨by decide, by decide, by decide, by decide⟩

/-- C4 amended: for advice in which exactly "blazer" and "navy" match the
vocabularies and which is long enough (more than 720 characters) to trigger
keyword extraction, the derived prompt lists "blazer" before "navy", in
declared vocabulary order regardless of their order in the source text. -/
theorem navy_blazer_keyword_vocab_order (fashion_advice : List Char)
    (hlen : 720 < fashion_advice.length)
    (hext : extracted_terms fashion_advice = ["blazer".toList, "navy".toList]) :
    refined_prompt fashion_advice = keywordTemplate ++ "blazer navy".toList ∧
    blazerBeforeNavyB (refined_prompt fashion_advice) = true := by
  have hcond : max_prompt_length <
      (promptIntro ++ fashion_advice.take max_prompt_length).length := by
    simp only [List.length_append, List.length_take, promptIntro_length, max_prompt_length]
    omega
  have hne : extracted_terms fashion_advice ≠ [] := by rw [hext]; simp
  have hp : refined_prompt fashion_advice =
      keywordTemplate ++ joinSpace (extracted_terms fashion_advice) := by
    unfold refined_prompt
    rw [if_pos hcond, if_neg hne]
  rw [hp, hext]
  exact ⟨by decide, by decide⟩

/-- The advice text "navy blazer " repeated 61 times (732 characters). -/
def advice_navy_blazer : List Char := (List.replicate 61 "navy blazer ".toList).flatten

/-- Witness for the amended C4 at a 732-character advice made only of the
words "navy blazer". -/
theorem navy_blazer_keyword_vocab_order_witness :
    refined_prompt advice_navy_blazer = keywordTemplate ++ "blazer navy".toList ∧
    blazerBeforeNavyB (refined_prompt advice_navy_blazer) = true :=
  navy_blazer_keyword_vocab_order advice_navy_blazer (by decide) (by decide)

/-- C10: a vocabulary term counts as matched whenever it occurs as a substring
of the lowercased advice (the extracted list is exactly the vocabulary filtered
by substring occurrence); in particular any advice containing "tailored"
matches the color term "red". -/
theorem substring_match_extracts (fashion_advice : List Char) :
    extracted_terms fashion_advice =
      (common_fashion_terms ++ colors).filter
        (fun t => containsSub t (lowercase fashion_advice)) ∧
    (containsSub "tailored".toList (lowercase fashion_advice) = true →
      "red".toList ∈ extracted_terms fashion_advice) := by
  constructor
  · unfold extracted_terms
    rw [List.filter_append]
  · intro h
    have h1 : "red".toList <:+: "tailored".toList :=
      (containsSub_iff _ _).1 (by decide)
    have hred : containsSub "red".toList (lowercase fashion_advice) = true :=
      (containsSub_iff _ _).2 (h1.trans ((containsSub_iff _ _).1 h))
    unfold extracted_terms
    refine List.mem_append.2 (Or.inr (List.mem_filter.2 ⟨?_, hred⟩))
    decide

/-- Witness for C10: the advice "A tailored silhouette" contains no "red" as a
word, yet "red" is extracted because it is a substring of "tailored". -/
theorem substring_match_extracts_witness :
    "red".toList ∈ extracted_terms "A tailored silhouette".toList :=
  (substring_match_extracts "A tailored silhouette".toList).2 (by decide)

/-! ## Provider-chain claims -/

/-- The full provider order of the chain: Replicate, gpt-image-1, Stability,
Nebius, DALL-E 3, then the degraded DALL-E 2 attempt. -/
def chain_order (p : List Char) : List Attempt :=
  [.replicate p, .gpt_image_1 p, .stability p, .nebius p,
   .dalle "dall-e-3".toList p, .dalle "dall-e-2".toList degraded_prompt]

theorem dalle2_attempt_fst (env : Env) :
    (dalle2_attempt env).1 = [.dalle "dall-e-2".toList degraded_prompt] := by
  unfold dalle2_attempt
  split <;> rfl

theorem dalle3_attempt_fst_sublist (env : Env) (p : List Char) :
    (dalle3_attempt env p).1.Sublist
      [.dalle "dall-e-3".toList p, .dalle "dall-e-2".toList degraded_prompt] := by
  unfold dalle3_attempt
  split
  · simp
  · simp
  · simp [dalle2_attempt_fst]

theorem nebius_attempt_fst_sublist (env : Env) (p : List Char) :
    (nebius_attempt env p).1.Sublist
      [.nebius p, .dalle "dall-e-3".toList p, .dalle "dall-e-2".toList degraded_prompt] := by
  unfold nebius_attempt
  split
  · split
    · split
      · simp
      · exact (dalle3_attempt_fst_sublist env p).cons₂ _
    · exact (dalle3_attempt_fst_sublist env p).cons₂ _
  · exact (dalle3_attempt_fst_sublist env p).cons _

theorem stability_attempt_fst_sublist (env : Env) (p : List Char) :
    (stability_attempt env p).1.Sublist
      [.stability p, .nebius p, .dalle "dall-e-3".toList p,
       .dalle "dall-e-2".toList degraded_prompt] := by
  unfold stability_attempt
  split
  · split
    · split
      · simp
      · exact (nebius_attempt_fst_sublist env p).cons₂ _
    · exact (nebius_attempt_fst_sublist env p).cons₂ _
  · exact (nebius_attempt_fst_sublist env p).cons _

theorem openai_models_fst_sublist (env : Env) (p : List Char) :
    (openai_models env p).1.Sublist
      [.gpt_image_1 p, .stability p, .nebius p, .dalle "dall-e-3".toList p,
       .dalle "dall-e-2".toList degraded_prompt] := by
  unfold openai_models
  split
  · simp
  · simp
  · exact (stability_attempt_fst_sublist env p).cons₂ _

/-- Environment in which Replicate raises, gpt-image-1 returns an empty (but
non-exceptional) result, and Stability is configured and would succeed. -/
def env_gpt_empty : Env :=
  { replicate_configured := true, openai_configured := true, stability_api_key := true,
    nebius_api_key := false, nebius_folder_id := false,
    replicate_run := .exn, gpt_image_1 := .ok [],
    stability_post := some (200, ["aW1n".toList]), nebius_post := none,
    dalle3 := .ok ["u".toList], dalle2 := .ok ["v".toList], time_now := 1716000000 }

/-- C1 counterexample: gpt-image-1's empty result is a failure, and the
Stability provider is configured and would succeed, yet the chain stops —
Stability, Nebius and the DALL-E models are never attempted and the call
yields no image even though the ordered chain was not exhausted. -/
theorem gpt_empty_skips_rest :
    generate_fashion_image env_gpt_empty "advice".toList =
      ([.replicate (refined_prompt "advice".toList),
        .gpt_image_1 (refined_prompt "advice".toList)], none) ∧
    env_gpt_empty.stability_api_key = true ∧
    env_gpt_empty.stability_post = some (200, ["aW1n".toList]) := by
  exact ⟨by decide, rfl, rfl⟩

/-- C1 amended: provider attempts always occur in the fixed order A (Replicate),
B (gpt-image-1), C (Stability), D (Nebius), E (DALL-E 3, then degraded DALL-E 2),
each at most once, and exceptions inside one attempt never propagate; but a
failed step does not always advance the chain: when the OpenAI client is
unconfigured only Provider A is ever attempted, and when gpt-image-1 returns an
empty non-exceptional result none of C, D, E is attempted and the call yields
no image even though later providers remain. -/
theorem attempt_order_and_early_exit (env : Env) (fashion_advice : List Char) :
    (generate_fashion_image env fashion_advice).1.Sublist
      (chain_order (refined_prompt fashion_advice)) ∧
    (env.openai_configured = false →
      ∀ a ∈ (generate_fashion_image env fashion_advice).1,
        a = .replicate (refined_prompt fashion_advice)) ∧
    (env.gpt_image_1 = .ok [] →
      ∀ a ∈ (generate_fashion_image env fashion_advice).1,
        a = .replicate (refined_prompt fashion_advice) ∨
          a = .gpt_image_1 (refined_prompt fashion_advice)) ∧
    (env.replicate_configured = false → env.openai_configured = true →
      env.gpt_image_1 = .ok [] →
      (generate_fashion_image env fashion_advice).2 = none) := by
  refine ⟨?_, ?_, ?_, ?_⟩
  · unfold generate_fashion_image chain_order
    split
    · split
      · simp
      · split
        · exact (openai_models_fst_sublist env _).cons₂ _
        · simp
    · split
      · exact (openai_models_fst_sublist env _).cons _
      · simp
  · intro h
    simp only [generate_fashion_image, h]
    split
    · split <;> simp
    · simp
  · intro h
    simp only [generate_fashion_image, openai_models, h]
    split
    · split
      · simp
      · split <;> simp
    · split <;> simp
  · intro h1 h2 h3
    simp [generate_fashion_image, openai_models, h1, h2, h3]

/-- Witness for the amended C1 at a concrete environment in which Replicate is
unconfigured and gpt-image-1 returns an empty result. -/
def env_gpt_empty_no_replicate : Env :=
  { env_gpt_empty with replicate_configured := false }

theorem attempt_order_and_early_exit_witness :
    (generate_fashion_image env_gpt_empty_no_replicate "advice".toList).1.Sublist
      (chain_order (refined_prompt "advice".toList)) ∧
    (generate_fashion_image env_gpt_empty_no_replicate "advice".toList).2 = none :=
  ⟨(attempt_order_and_early_exit env_gpt_empty_no_replicate "advice".toList).1,
   (attempt_order_and_early_exit env_gpt_empty_no_replicate "advice".toList).2.2.2
     rfl rfl rfl⟩

/-- C2: if Replicate is configured and its attempt returns a non-empty output
list, the chain returns that list's first element and makes no other attempt,
so the call returns exactly one image reference. -/
theorem replicate_success_returns_first (env : Env) (fashion_advice : List Char)
    (r : List Char) (rest : List (List Char))
    (hc : env.replicate_configured = true)
    (hr : env.replicate_run = .ok (r :: rest)) :
    generate_fashion_image env fashion_advice =
      ([.replicate (refined_prompt fashion_advice)], some r) := by
  simp [generate_fashion_image, hc, hr]

/-- Environment in which every provider is configured and would succeed. -/
def env_all_ready : Env :=
  { replicate_configured := true, openai_configured := true, stability_api_key := true,
    nebius_api_key := true, nebius_folder_id := true,
    replicate_run := .ok ["https://replicate.delivery/out-0.webp".toList],
    gpt_image_1 := .ok ["https://oai/img1.png".toList],
    stability_post := some (200, ["YWJj".toList]),
    nebius_post := some (200, ["ZGVm".toList]),
    dalle3 := .ok ["https://oai/img3.png".toList],
    dalle2 := .ok ["https://oai/img2.png".toList], time_now := 1716000001 }

/-- Witness for C2: with every provider ready, only Replicate is attempted and
its first output is returned. -/
theorem replicate_success_returns_first_witness :
    generate_fashion_image env_all_ready "advice".toList =
      ([.replicate (refined_prompt "advice".toList)],
        some "https://replicate.delivery/out-0.webp".toList) :=
  replicate_success_returns_first env_all_ready "advice".toList
    "https://replicate.delivery/out-0.webp".toList [] rfl rfl

/-- One of two same-second requests that persist a Stability image. -/
def env_stability_a : Env :=
  { replicate_configured := false, openai_configured := true, stability_api_key := true,
    nebius_api_key := false, nebius_folder_id := false,
    replicate_run := .exn, gpt_image_1 := .exn,
    stability_post := some (200, ["YWFh".toList]), nebius_post := none,
    dalle3 := .exn, dalle2 := .exn, time_now := 1716000000 }

/-- The second request: different advice and different artifact bytes, but the
same `int(time.time())` second. -/
def env_stability_b : Env :=
  { env_stability_a with stability_post := some (200, ["YmJi".toList]) }

/-- C3: two requests that both persist a Stability image during the same clock
second produce the same filename and the same served URL — the filename derives
only from the provider tag and the whole-second timestamp, so it is not unique
across concurrent requests. -/
theorem same_second_filename_collision :
    (generate_fashion_image env_stability_a "first advice".toList).2 =
      some (served_url (stability_filename 1716000000)) ∧
    (generate_fashion_image env_stability_b "second advice".toList).2 =
      some (served_url (stability_filename 1716000000)) := by
  exact ⟨by decide, by decide⟩

/-- Environment reaching the final fallback: A, C, D unconfigured, B raises,
E's first attempt raises, and the degraded attempt succeeds. -/
def env_dalle_path : Env :=
  { replicate_configured := false, openai_configured := true, stability_api_key := false,
    nebius_api_key := false, nebius_folder_id := false,
    replicate_run := .exn, gpt_image_1 := .exn, stability_post := none, nebius_post := none,
    dalle3 := .exn, dalle2 := .ok ["https://oai/degraded.png".toList],
    time_now := 1716000000 }

/-- C5 counterexample: in the claimed scenario the degraded attempt is indeed
made exactly once with the hardcoded prompt and its result is returned, but it
runs on the model "dall-e-2", not on the same model "dall-e-3" as the first
attempt of Provider E. -/
theorem degraded_attempt_different_model :
    generate_fashion_image env_dalle_path "x".toList =
      ([.gpt_image_1 (refined_prompt "x".toList),
        .dalle "dall-e-3".toList (refined_prompt "x".toList),
        .dalle "dall-e-2".toList degraded_prompt],
        some "https://oai/degraded.png".toList) ∧
    "dall-e-2".toList ≠ "dall-e-3".toList := by
  exact ⟨by decide, by decide⟩

/-- C5 amended: if Provider E's first attempt (DALL-E 3, with the derived
prompt) raises, exactly one further degraded attempt is made with the
hardcoded prompt "professional fashion outfit" on the model "dall-e-2"; when
A, C, D are unconfigured and B raises, a successful degraded attempt's result
is what the chain returns. -/
theorem degraded_retry_on_dalle2 (env : Env) (fashion_advice : List Char)
    (r : List Char) (rest : List (List Char))
    (h1 : env.replicate_configured = false) (h2 : env.openai_configured = true)
    (h3 : env.gpt_image_1 = .exn) (h4 : env.stability_api_key = false)
    (h5 : env.nebius_api_key = false) (h6 : env.dalle3 = .exn)
    (h7 : env.dalle2 = .ok (r :: rest)) :
    generate_fashion_image env fashion_advice =
      ([.gpt_image_1 (refined_prompt fashion_advice),
        .dalle "dall-e-3".toList (refined_prompt fashion_advice),
        .dalle "dall-e-2".toList degraded_prompt], some r) := by
  simp [generate_fashion_image, openai_models, stability_attempt, nebius_attempt,
    dalle3_attempt, dalle2_attempt, h1, h2, h3, h4, h5, h6, h7]

/-- Witness for the amended C5 at the concrete fallback environment. -/
theorem degraded_retry_on_dalle2_witness :
    generate_fashion_image env_dalle_path "y".toList =
      ([.gpt_image_1 (refined_prompt "y".toList),
        .dalle "dall-e-3".toList (refined_prompt "y".toList),
        .dalle "dall-e-2".toList degraded_prompt],
        some "https://oai/degraded.png".toList) :=
  degraded_retry_on_dalle2 env_dalle_path "y".toList
    "https://oai/degraded.png".toList [] rfl rfl rfl rfl rfl rfl rfl

/-- C8: when the image chain is exhausted (it returns no image), the
`/api/analyze` handler still returns a success response with a null image URL
and a non-empty advice text — exhaustion is never surfaced as an HTTP error. -/
theorem exhaustion_yields_success_null (env : Env) (text_advice : List Char)
    (h : (generate_fashion_image env text_advice).2 = none) :
    analyze_fashion env true true text_advice =
      .success ⟨(if text_advice.isEmpty then fallback_advice else text_advice), none⟩ ∧
    (if text_advice.isEmpty then fallback_advice else text_advice) ≠ [] := by
  constructor
  · simp [analyze_fashion, h]
  · split
    · decide
    · rename_i hne
      simpa [List.isEmpty_iff] using hne

/-- Environment in which Replicate and OpenAI are unconfigured (so every
provider fails or is skipped and the chain returns nothing). -/
def env_all_skipped : Env :=
  { replicate_configured := false, openai_configured := false, stability_api_key := true,
    nebius_api_key := true, nebius_folder_id := true,
    replicate_run := .exn, gpt_image_1 := .exn, stability_post := some (200, ["YQ".toList]),
    nebius_post := some (200, ["Yg".toList]), dalle3 := .exn, dalle2 := .exn,
    time_now := 1716000000 }

/-- Witness for C8 at a concrete exhausted environment and advice text. -/
theorem exhaustion_yields_success_null_witness :
    analyze_fashion env_all_skipped true true "Wear a linen shirt.".toList =
      .success ⟨(if ("Wear a linen shirt.".toList).isEmpty then fallback_advice
          else "Wear a linen shirt.".toList), none⟩ ∧
    (if ("Wear a linen shirt.".toList).isEmpty then fallback_advice
      else "Wear a linen shirt.".toList) ≠ [] :=
  exhaustion_yields_success_null env_all_skipped "Wear a linen shirt.".toList rfl
